import Mathlib

/-!
Verification of `homeassistant/components/dwd_weather_warnings/sensor.py`.

The module is embedded shallowly: Python dictionaries become association
lists over an `AttrVal` value type, attribute lookups that may raise
`KeyError` return `Option`, and the entity class becomes a structure whose
properties are functions of its fields.
-/

set_option maxHeartbeats 1000000

/-- Attribute values stored in Python dictionaries of this module: opaque
scalar values coming from the API (strings, datetimes, levels), the integer
produced by `len`, and nested dictionaries (the composite `warning_i`
attribute). -/
inductive AttrVal : Type where
  | str : String → AttrVal
  | num : Nat → AttrVal
  | dict : List (String × AttrVal) → AttrVal

/-- A Python dictionary, as an association list in insertion order.
Python dictionaries never hold duplicate keys. -/
abbrev Dict := List (String × AttrVal)

/-- Python `d[k]` read: the value at the first matching key, `none` when the
lookup would raise `KeyError`. -/
def dget? : Dict → String → Option AttrVal
  | [], _ => none
  | p :: d, k => if p.1 = k then some p.2 else dget? d k

/-- Python `d[k] = v` write: overwrite the value at an existing key in place,
otherwise append the new pair at the end. -/
def dinsert : Dict → String → AttrVal → Dict
  | [], k, v => [(k, v)]
  | p :: d, k, v => if p.1 = k then (k, v) :: d else p :: dinsert d k v

/-- Modelled from the spec: constant `CURRENT_WARNING_SENSOR` imported from
the integration's `const` module, which is not part of the given source; the
spec names the current-warning sensor key `current_warning_level`. -/
def CURRENT_WARNING_SENSOR : String := "current_warning_level"

/-- Modelled from the spec: constant `ADVANCE_WARNING_SENSOR` imported from
the integration's `const` module; the spec names the advance sensor key
`advance_warning_level`. -/
def ADVANCE_WARNING_SENSOR : String := "advance_warning_level"

/-- Modelled from the spec: constant `ATTR_REGION_NAME` from the missing
`const` module; the spec names this attribute key `region_name`. -/
def ATTR_REGION_NAME : String := "region_name"

/-- Modelled from the spec: constant `ATTR_REGION_ID` from the missing
`const` module; the spec names this attribute key `region_id`. -/
def ATTR_REGION_ID : String := "region_id"

/-- Modelled from the spec: constant `ATTR_LAST_UPDATE` from the missing
`const` module; the spec names this attribute key `last_update`. -/
def ATTR_LAST_UPDATE : String := "last_update"

/-- Modelled from the spec: constant `ATTR_WARNING_COUNT` from the missing
`const` module; the spec names this attribute key `warning_count`. -/
def ATTR_WARNING_COUNT : String := "warning_count"

/-- Modelled from the spec: key constant `API_ATTR_WARNING_NAME` of the
warning dictionaries delivered by the API, from the missing `const` module. -/
def API_ATTR_WARNING_NAME : String := "event"

/-- Modelled from the spec: key constant `API_ATTR_WARNING_TYPE` from the
missing `const` module. -/
def API_ATTR_WARNING_TYPE : String := "event_code"

/-- Modelled from the spec: key constant `API_ATTR_WARNING_LEVEL` from the
missing `const` module. -/
def API_ATTR_WARNING_LEVEL : String := "level"

/-- Modelled from the spec: key constant `API_ATTR_WARNING_HEADLINE` from the
missing `const` module. -/
def API_ATTR_WARNING_HEADLINE : String := "headline"

/-- Modelled from the spec: key constant `API_ATTR_WARNING_DESCRIPTION` from
the missing `const` module. -/
def API_ATTR_WARNING_DESCRIPTION : String := "description"

/-- Modelled from the spec: key constant `API_ATTR_WARNING_INSTRUCTION` from
the missing `const` module. -/
def API_ATTR_WARNING_INSTRUCTION : String := "instruction"

/-- Modelled from the spec: key constant `API_ATTR_WARNING_START` from the
missing `const` module. -/
def API_ATTR_WARNING_START : String := "start_time"

/-- Modelled from the spec: key constant `API_ATTR_WARNING_END` from the
missing `const` module. -/
def API_ATTR_WARNING_END : String := "end_time"

/-- Modelled from the spec: key constant `API_ATTR_WARNING_PARAMETERS` from
the missing `const` module. -/
def API_ATTR_WARNING_PARAMETERS : String := "parameters"

/-- Modelled from the spec: key constant `API_ATTR_WARNING_COLOR` from the
missing `const` module. -/
def API_ATTR_WARNING_COLOR : String := "color"

/-- Modelled from the spec: constant `DEFAULT_NAME` from the missing `const`
module, the display-name stem of the integration. -/
def DEFAULT_NAME : String := "DWD-Weather-Warnings"

/-- Modelled from the spec: constant `DOMAIN` from the missing `const`
module, the integration's domain slug. -/
def DOMAIN : String := "dwd_weather_warnings"

/-- Modelled from the spec: constant `HOMEASSISTANT_DOMAIN` imported from the
platform core, not part of the given source. -/
def HOMEASSISTANT_DOMAIN : String := "homeassistant"

/-- Modelled from the spec: constant `SOURCE_IMPORT` of the platform's config
entries module, not part of the given source; the source of an import flow. -/
def SOURCE_IMPORT : String := "import"

/-- State of the API client object held by the coordinator, as read by the
sensor: `self.api.<field>` accesses in the source become field reads. -/
structure DwdApi where
  warncell_name : AttrVal
  warncell_id : AttrVal
  last_update : AttrVal
  current_warning_level : AttrVal
  expected_warning_level : AttrVal
  current_warnings : List Dict
  expected_warnings : List Dict
  data_valid : Bool

/-- The coordinator, as far as this module reads it: it carries the API
client object (`coordinator.api`). -/
structure DwdWeatherWarningsCoordinator where
  api : DwdApi

/-- A `SensorEntityDescription` as used by `SENSOR_TYPES`. -/
structure SensorEntityDescription where
  key : String
  name : String
  icon : String

/-- The fields of a `ConfigEntry` read by this module. `unique_id` may be
`None` in the platform, hence `Option`. -/
structure ConfigEntry where
  title : String
  entry_id : String
  unique_id : Option String

/-- Python f-string rendering of a possibly-`None` string value. -/
def pystr : Option String → String
  | none => "None"
  | some s => s

/-- The tuple `SENSOR_TYPES` of the source. -/
def SENSOR_TYPES : List SensorEntityDescription :=
  [{ key := CURRENT_WARNING_SENSOR, name := "Current Warning Level",
     icon := "mdi:close-octagon-outline" },
   { key := ADVANCE_WARNING_SENSOR, name := "Advance Warning Level",
     icon := "mdi:close-octagon-outline" }]

/-- The sensor entity: the fields set by
`DwdWeatherWarningsSensor.__init__`. -/
structure DwdWeatherWarningsSensor where
  coordinator : DwdWeatherWarningsCoordinator
  entity_description : SensorEntityDescription
  attr_name : String
  attr_unique_id : String
  device_identifiers : String × String
  device_name : String
  api : DwdApi

/-- `DwdWeatherWarningsSensor.__init__`: stores the description, builds the
name and unique id from the entry and description, and keeps a reference to
the coordinator's API object. -/
def DwdWeatherWarningsSensor.init (coordinator : DwdWeatherWarningsCoordinator)
    (entry : ConfigEntry) (description : SensorEntityDescription) :
    DwdWeatherWarningsSensor :=
  { coordinator := coordinator
    entity_description := description
    attr_name := DEFAULT_NAME ++ " " ++ entry.title ++ " " ++ description.name
    attr_unique_id := pystr entry.unique_id ++ "-" ++ description.key
    device_identifiers := (DOMAIN, entry.entry_id)
    device_name := DEFAULT_NAME ++ " " ++ entry.title
    api := coordinator.api }

/-- `async_setup_entry`: looks up the coordinator in `hass.data[DOMAIN]` by
entry id and adds one sensor per entry of `SENSOR_TYPES`. -/
def async_setup_entry (hassData : String → DwdWeatherWarningsCoordinator)
    (entry : ConfigEntry) : List DwdWeatherWarningsSensor :=
  let coordinator := hassData entry.entry_id
  SENSOR_TYPES.map fun description =>
    DwdWeatherWarningsSensor.init coordinator entry description

/-- An issue registered through `async_create_issue`, with the arguments the
source passes. -/
structure IssueRecord where
  domain : String
  issue_id : String
  breaks_in_ha_version : String
  is_fixable : Bool
  issue_domain : String
  severity : String
  translation_key : String

/-- A config flow started through `hass.config_entries.flow.async_init`. -/
structure FlowInit where
  handler : String
  source : String
  data : Dict

/-- The observable effects of `async_setup_platform` on the platform: issues
registered, flows started, entities added. -/
structure PlatformSetupResult where
  issues : List IssueRecord
  flows : List FlowInit
  entities_added : List DwdWeatherWarningsSensor

/-- `async_setup_platform`: registers the YAML-deprecation issue, starts
an import config flow carrying the YAML configuration, adds no entities.
`discovery_info` is accepted and ignored, as in the source. -/
def async_setup_platform (config : Dict) (discovery_info : Option Dict) :
    PlatformSetupResult :=
  { issues := [{ domain := HOMEASSISTANT_DOMAIN
                 issue_id := "deprecated_yaml_" ++ DOMAIN
                 breaks_in_ha_version := "2023.12.0"
                 is_fixable := false
                 issue_domain := DOMAIN
                 severity := "warning"
                 translation_key := "deprecated_yaml" }]
    flows := [{ handler := DOMAIN, source := SOURCE_IMPORT, data := config }]
    entities_added := [] }

/-- `native_value`: the current warning level for the current-warning sensor,
the expected warning level otherwise. -/
def DwdWeatherWarningsSensor.native_value (self : DwdWeatherWarningsSensor) :
    AttrVal :=
  if self.entity_description.key = CURRENT_WARNING_SENSOR then
    self.api.current_warning_level
  else
    self.api.expected_warning_level

/-- The warning list selected inside `extra_state_attributes`:
`api.current_warnings` for the current-warning sensor, `api.expected_warnings`
otherwise. -/
def searchedWarnings (key : String) (api : DwdApi) : List Dict :=
  if key = CURRENT_WARNING_SENSOR then api.current_warnings
  else api.expected_warnings

/-- The key `f"warning_{i}{suffix}"` of a flattened warning attribute; the
composite attribute `f"warning_{i}"` uses the empty suffix. -/
def wkey (i : Nat) (suffix : String) : String :=
  "warning_" ++ toString i ++ suffix

/-- The `for i, warning in enumerate(searched_warnings, 1)` loop of
`extra_state_attributes`: flattens warning `i` into `data`, then stores a
copy of the warning (with its start and end fields re-read from `data`) as
the composite attribute, and continues with `i + 1`. A failed dictionary
lookup (Python `KeyError`) aborts with `none`. -/
def warningLoop (i : Nat) (warnings : List Dict) (data : Dict) : Option Dict :=
  match warnings with
  | [] => some data
  | warning :: rest => do
    let v1 ← dget? warning API_ATTR_WARNING_NAME
    let data := dinsert data (wkey i "_name") v1
    let v2 ← dget? warning API_ATTR_WARNING_TYPE
    let data := dinsert data (wkey i "_type") v2
    let v3 ← dget? warning API_ATTR_WARNING_LEVEL
    let data := dinsert data (wkey i "_level") v3
    let v4 ← dget? warning API_ATTR_WARNING_HEADLINE
    let data := dinsert data (wkey i "_headline") v4
    let v5 ← dget? warning API_ATTR_WARNING_DESCRIPTION
    let data := dinsert data (wkey i "_description") v5
    let v6 ← dget? warning API_ATTR_WARNING_INSTRUCTION
    let data := dinsert data (wkey i "_instruction") v6
    let v7 ← dget? warning API_ATTR_WARNING_START
    let data := dinsert data (wkey i "_start") v7
    let v8 ← dget? warning API_ATTR_WARNING_END
    let data := dinsert data (wkey i "_end") v8
    let v9 ← dget? warning API_ATTR_WARNING_PARAMETERS
    let data := dinsert data (wkey i "_parameters") v9
    let v10 ← dget? warning API_ATTR_WARNING_COLOR
    let data := dinsert data (wkey i "_color") v10
    let warning_copy := warning
    let s ← dget? data (wkey i "_start")
    let warning_copy := dinsert warning_copy API_ATTR_WARNING_START s
    let e ← dget? data (wkey i "_end")
    let warning_copy := dinsert warning_copy API_ATTR_WARNING_END e
    let data := dinsert data (wkey i "") (AttrVal.dict warning_copy)
    warningLoop (i + 1) rest data

/-- `extra_state_attributes`: region name, region id and last update, then
the warning count of the selected list, then the flattening loop. -/
def DwdWeatherWarningsSensor.extra_state_attributes
    (self : DwdWeatherWarningsSensor) : Option Dict :=
  let data : Dict :=
    [(ATTR_REGION_NAME, self.api.warncell_name),
     (ATTR_REGION_ID, self.api.warncell_id),
     (ATTR_LAST_UPDATE, self.api.last_update)]
  let searched_warnings :=
    searchedWarnings self.entity_description.key self.api
  let data :=
    dinsert data ATTR_WARNING_COUNT (AttrVal.num searched_warnings.length)
  warningLoop 1 searched_warnings data

/-- `available`: whether the device could be accessed during the last update
call. -/
def DwdWeatherWarningsSensor.available (self : DwdWeatherWarningsSensor) :
    Bool :=
  self.api.data_valid

/-! Groundwork on decimal representations of naturals: `toString i` inside
the `f"warning_{i}..."` keys is `Nat.repr i`, a nonempty all-digit string,
and it determines `i`. -/

/-- Value of the decimal digit character produced by `Nat.digitChar`. -/
def chVal (c : Char) : Nat := c.toNat - 48

/-- Numeric value of a list of decimal digit characters, most significant
first. -/
def parseDigits (l : List Char) : Nat :=
  l.foldl (fun a c => 10 * a + chVal c) 0

lemma digitChar_isDigit (m : Nat) (h : m < 10) :
    (Nat.digitChar m).isDigit = true := by
  interval_cases m <;> decide

lemma chVal_digitChar (m : Nat) (h : m < 10) : chVal (Nat.digitChar m) = m := by
  interval_cases m <;> decide

lemma toDigitsCore_append (n : Nat) : ∀ (fuel : Nat) (ds : List Char),
    n < fuel →
    Nat.toDigitsCore 10 fuel n ds = Nat.toDigitsCore 10 (n + 1) n [] ++ ds := by
  induction n using Nat.strong_induction_on with
  | _ n ih =>
    intro fuel ds hfuel
    match fuel, hfuel with
    | fuel + 1, hfuel =>
      by_cases h10 : n / 10 = 0
      · simp [Nat.toDigitsCore, h10]
      · have hn : 0 < n := by
          rcases Nat.eq_zero_or_pos n with h | h
          · subst h; simp at h10
          · exact h
        have hdiv : n / 10 < n := Nat.div_lt_self hn (by norm_num)
        have hfuel2 : n / 10 < fuel :=
          lt_of_lt_of_le hdiv (Nat.lt_succ_iff.mp hfuel)
        rw [show Nat.toDigitsCore 10 (fuel + 1) n ds =
              Nat.toDigitsCore 10 fuel (n / 10)
                (Nat.digitChar (n % 10) :: ds) by
            simp [Nat.toDigitsCore, h10]]
        rw [show Nat.toDigitsCore 10 (n + 1) n [] =
              Nat.toDigitsCore 10 n (n / 10) [Nat.digitChar (n % 10)] by
            simp [Nat.toDigitsCore, h10]]
        rw [ih (n / 10) hdiv fuel (Nat.digitChar (n % 10) :: ds) hfuel2,
            ih (n / 10) hdiv n [Nat.digitChar (n % 10)] hdiv]
        simp

lemma toDigitsCore_digits (n : Nat) :
    ∀ c ∈ Nat.toDigitsCore 10 (n + 1) n [], c.isDigit = true := by
  induction n using Nat.strong_induction_on with
  | _ n ih =>
    by_cases h10 : n / 10 = 0
    · intro c hc
      rw [show Nat.toDigitsCore 10 (n + 1) n [] = [Nat.digitChar (n % 10)] by
        simp [Nat.toDigitsCore, h10]] at hc
      simp at hc
      subst hc
      exact digitChar_isDigit _ (Nat.mod_lt _ (by norm_num))
    · have hn : 0 < n := by
        rcases Nat.eq_zero_or_pos n with h | h
        · subst h; simp at h10
        · exact h
      have hdiv : n / 10 < n := Nat.div_lt_self hn (by norm_num)
      intro c hc
      rw [show Nat.toDigitsCore 10 (n + 1) n [] =
            Nat.toDigitsCore 10 n (n / 10) [Nat.digitChar (n % 10)] by
          simp [Nat.toDigitsCore, h10],
        toDigitsCore_append (n / 10) n [Nat.digitChar (n % 10)] hdiv] at hc
      rcases List.mem_append.mp hc with h | h
      · exact ih (n / 10) hdiv c h
      · simp at h
        subst h
        exact digitChar_isDigit _ (Nat.mod_lt _ (by norm_num))

lemma toDigitsCore_ne_nil (n : Nat) : Nat.toDigitsCore 10 (n + 1) n [] ≠ [] := by
  by_cases h10 : n / 10 = 0
  · rw [show Nat.toDigitsCore 10 (n + 1) n [] = [Nat.digitChar (n % 10)] by
      simp [Nat.toDigitsCore, h10]]
    simp
  · have hn : 0 < n := by
      rcases Nat.eq_zero_or_pos n with h | h
      · subst h; simp at h10
      · exact h
    have hdiv : n / 10 < n := Nat.div_lt_self hn (by norm_num)
    rw [show Nat.toDigitsCore 10 (n + 1) n [] =
          Nat.toDigitsCore 10 n (n / 10) [Nat.digitChar (n % 10)] by
        simp [Nat.toDigitsCore, h10],
      toDigitsCore_append (n / 10) n [Nat.digitChar (n % 10)] hdiv]
    simp

lemma parseDigits_toDigitsCore (n : Nat) :
    parseDigits (Nat.toDigitsCore 10 (n + 1) n []) = n := by
  induction n using Nat.strong_induction_on with
  | _ n ih =>
    by_cases h10 : n / 10 = 0
    · rw [show Nat.toDigitsCore 10 (n + 1) n [] = [Nat.digitChar (n % 10)] by
        simp [Nat.toDigitsCore, h10]]
      have hlt : n < 10 := by omega
      simp [parseDigits, chVal_digitChar _ (Nat.mod_lt _ (by norm_num))]
      omega
    · have hn : 0 < n := by
        rcases Nat.eq_zero_or_pos n with h | h
        · subst h; simp at h10
        · exact h
      have hdiv : n / 10 < n := Nat.div_lt_self hn (by norm_num)
      rw [show Nat.toDigitsCore 10 (n + 1) n [] =
            Nat.toDigitsCore 10 n (n / 10) [Nat.digitChar (n % 10)] by
          simp [Nat.toDigitsCore, h10],
        toDigitsCore_append (n / 10) n [Nat.digitChar (n % 10)] hdiv]
      rw [show parseDigits
            (Nat.toDigitsCore 10 (n / 10 + 1) (n / 10) [] ++
              [Nat.digitChar (n % 10)]) =
          10 * parseDigits (Nat.toDigitsCore 10 (n / 10 + 1) (n / 10) []) +
            chVal (Nat.digitChar (n % 10)) by
        simp [parseDigits, List.foldl_append]]
      rw [ih (n / 10) hdiv, chVal_digitChar _ (Nat.mod_lt _ (by norm_num))]
      omega

lemma repr_data_eq (n : Nat) :
    (Nat.repr n).data = Nat.toDigitsCore 10 (n + 1) n [] := rfl

lemma repr_data_digits (n : Nat) :
    ∀ c ∈ (Nat.repr n).data, c.isDigit = true := by
  rw [repr_data_eq]
  exact toDigitsCore_digits n

lemma repr_data_ne_nil (n : Nat) : (Nat.repr n).data ≠ [] := by
  rw [repr_data_eq]
  exact toDigitsCore_ne_nil n

lemma repr_data_inj {a b : Nat} (h : (Nat.repr a).data = (Nat.repr b).data) :
    a = b := by
  rw [repr_data_eq, repr_data_eq] at h
  have := parseDigits_toDigitsCore a
  rw [h, parseDigits_toDigitsCore b] at this
  exact this.symm

/-- Whether a character list does not start with a decimal digit (true for
the empty list). The attribute-key suffixes of this module all satisfy it. -/
def headNotDigit : List Char → Bool
  | [] => true
  | c :: _ => !c.isDigit

lemma digits_append_inj (ra : List Char) : ∀ (rb sd td : List Char),
    (∀ c ∈ ra, c.isDigit = true) → (∀ c ∈ rb, c.isDigit = true) →
    headNotDigit sd = true → headNotDigit td = true →
    ra ++ sd = rb ++ td → ra = rb ∧ sd = td := by
  induction ra with
  | nil =>
    intro rb sd td _ hrb hs _ h
    cases rb with
    | nil => simpa using h
    | cons b rb =>
      exfalso
      have hb : b.isDigit = true := hrb b (by simp)
      have hsd : sd = b :: (rb ++ td) := by simpa using h
      rw [hsd] at hs
      simp [headNotDigit, hb] at hs
  | cons a ra ih =>
    intro rb sd td hra hrb hs ht h
    cases rb with
    | nil =>
      exfalso
      have ha : a.isDigit = true := hra a (by simp)
      have htd : td = a :: (ra ++ sd) := by simpa using h.symm
      rw [htd] at ht
      simp [headNotDigit, ha] at ht
    | cons b rb =>
      have hab : a = b ∧ ra ++ sd = rb ++ td := by simpa using h
      have hrest := ih rb sd td (fun c hc => hra c (by simp [hc]))
        (fun c hc => hrb c (by simp [hc])) hs ht hab.2
      exact ⟨by rw [hab.1, hrest.1], hrest.2⟩

lemma string_append_left_cancel {a b c : String} (h : a ++ b = a ++ c) :
    b = c := by
  have hd := congrArg String.data h
  rw [String.data_append, String.data_append] at hd
  have := List.append_cancel_left hd
  cases b
  cases c
  exact congrArg String.mk this

lemma wkey_data (i : Nat) (s : String) :
    (wkey i s).data =
      'w' :: 'a' :: 'r' :: 'n' :: 'i' :: 'n' :: 'g' :: '_' ::
        ((Nat.repr i).data ++ s.data) := by
  show (("warning_" ++ toString i) ++ s).data = _
  rw [String.data_append, String.data_append]
  rfl

lemma wkey_inj {i j : Nat} {s t : String}
    (hs : headNotDigit s.data = true) (ht : headNotDigit t.data = true)
    (h : wkey i s = wkey j t) : i = j ∧ s = t := by
  have hd := congrArg String.data h
  rw [wkey_data, wkey_data] at hd
  simp only [List.cons.injEq, true_and] at hd
  have := digits_append_inj (Nat.repr i).data (Nat.repr j).data s.data t.data
    (repr_data_digits i) (repr_data_digits j) hs ht hd
  refine ⟨repr_data_inj this.1, ?_⟩
  cases s
  cases t
  exact congrArg String.mk this.2

lemma wkey_suffix_inj {i : Nat} {s t : String} (h : wkey i s = wkey i t) :
    s = t :=
  string_append_left_cancel (a := "warning_" ++ toString i) h

lemma dget?_dinsert (d : Dict) (k : String) (v : AttrVal) (k' : String) :
    dget? (dinsert d k v) k' = if k = k' then some v else dget? d k' := by
  induction d with
  | nil => by_cases h : k = k' <;> simp [dinsert, dget?, h]
  | cons p d ih =>
    by_cases hp : p.1 = k
    · by_cases h : k = k'
      · subst h
        simp [dinsert, hp, dget?]
      · have hpk : ¬ p.1 = k' := by rw [hp]; exact h
        simp [dinsert, hp, dget?, h, hpk]
    · by_cases h1 : p.1 = k'
      · by_cases h2 : k = k'
        · exact absurd (h1.trans h2.symm) hp
        · have h2s : ¬ k' = k := fun hh => h2 hh.symm
          simp [dinsert, hp, dget?, h1, h2, h2s]
      · simp [dinsert, hp, dget?, h1, ih]

lemma dget?_dinsert_self {w : Dict} {k0 : String} {v : AttrVal}
    (h : dget? w k0 = some v) (k : String) :
    dget? (dinsert w k0 v) k = dget? w k := by
  rw [dget?_dinsert]
  by_cases hk : k0 = k
  · subst hk
    rw [if_pos rfl]
    exact h.symm
  · simp [hk]

@[simp] lemma wkey_eq_wkey (i : Nat) (s t : String) :
    (wkey i s = wkey i t) ↔ s = t :=
  ⟨wkey_suffix_inj, fun h => h ▸ rfl⟩

/-- The suffixes of the flat warning attribute keys, paired with the warning
dictionary key each one is read from. -/
def fieldPairs : List (String × String) :=
  [("_name", API_ATTR_WARNING_NAME), ("_type", API_ATTR_WARNING_TYPE),
   ("_level", API_ATTR_WARNING_LEVEL), ("_headline", API_ATTR_WARNING_HEADLINE),
   ("_description", API_ATTR_WARNING_DESCRIPTION),
   ("_instruction", API_ATTR_WARNING_INSTRUCTION),
   ("_start", API_ATTR_WARNING_START), ("_end", API_ATTR_WARNING_END),
   ("_parameters", API_ATTR_WARNING_PARAMETERS),
   ("_color", API_ATTR_WARNING_COLOR)]

/-- All key suffixes one loop iteration writes: the ten field suffixes and
the empty suffix of the composite attribute. -/
def suffixList : List String :=
  ["", "_name", "_type", "_level", "_headline", "_description",
   "_instruction", "_start", "_end", "_parameters", "_color"]

lemma suffixList_headNotDigit :
    ∀ s ∈ suffixList, headNotDigit s.data = true := by decide

/-- The dictionary `data` as it stands at the end of one loop iteration for
warning number `i`, given the ten values read from the warning. -/
def flattenWarning (i : Nat) (warning data : Dict)
    (v1 v2 v3 v4 v5 v6 v7 v8 v9 v10 : AttrVal) : Dict :=
  dinsert
    (dinsert
      (dinsert
        (dinsert
          (dinsert
            (dinsert
              (dinsert
                (dinsert
                  (dinsert
                    (dinsert (dinsert data (wkey i "_name") v1)
                      (wkey i "_type") v2)
                    (wkey i "_level") v3)
                  (wkey i "_headline") v4)
                (wkey i "_description") v5)
              (wkey i "_instruction") v6)
            (wkey i "_start") v7)
          (wkey i "_end") v8)
        (wkey i "_parameters") v9)
      (wkey i "_color") v10)
    (wkey i "")
    (AttrVal.dict
      (dinsert (dinsert warning API_ATTR_WARNING_START v7)
        API_ATTR_WARNING_END v8))

lemma option_bind_some {α β : Type} {x : Option α} {f : α → Option β}
    {b : β} (h : x >>= f = some b) : ∃ a, x = some a ∧ f a = some b := by
  cases x with
  | none =>
    rw [show (none >>= f : Option β) = none from rfl] at h
    exact Option.noConfusion h
  | some a =>
    rw [show (some a >>= f : Option β) = f a from rfl] at h
    exact ⟨a, rfl, h⟩

lemma warningLoop_cons_inv {i : Nat} {warning : Dict} {rest : List Dict}
    {data d : Dict} (h : warningLoop i (warning :: rest) data = some d) :
    ∃ v1 v2 v3 v4 v5 v6 v7 v8 v9 v10,
      dget? warning API_ATTR_WARNING_NAME = some v1 ∧
      dget? warning API_ATTR_WARNING_TYPE = some v2 ∧
      dget? warning API_ATTR_WARNING_LEVEL = some v3 ∧
      dget? warning API_ATTR_WARNING_HEADLINE = some v4 ∧
      dget? warning API_ATTR_WARNING_DESCRIPTION = some v5 ∧
      dget? warning API_ATTR_WARNING_INSTRUCTION = some v6 ∧
      dget? warning API_ATTR_WARNING_START = some v7 ∧
      dget? warning API_ATTR_WARNING_END = some v8 ∧
      dget? warning API_ATTR_WARNING_PARAMETERS = some v9 ∧
      dget? warning API_ATTR_WARNING_COLOR = some v10 ∧
      warningLoop (i + 1) rest
        (flattenWarning i warning data v1 v2 v3 v4 v5 v6 v7 v8 v9 v10) =
        some d := by
  simp only [warningLoop] at h
  obtain ⟨v1, h1, h⟩ := option_bind_some h
  obtain ⟨v2, h2, h⟩ := option_bind_some h
  obtain ⟨v3, h3, h⟩ := option_bind_some h
  obtain ⟨v4, h4, h⟩ := option_bind_some h
  obtain ⟨v5, h5, h⟩ := option_bind_some h
  obtain ⟨v6, h6, h⟩ := option_bind_some h
  obtain ⟨v7, h7, h⟩ := option_bind_some h
  obtain ⟨v8, h8, h⟩ := option_bind_some h
  obtain ⟨v9, h9, h⟩ := option_bind_some h
  obtain ⟨v10, h10, h⟩ := option_bind_some h
  obtain ⟨s, hs, h⟩ := option_bind_some h
  obtain ⟨e, he, hloop⟩ := option_bind_some h
  rw [dget?_dinsert, if_neg (by simp),
    dget?_dinsert, if_neg (by simp),
    dget?_dinsert, if_neg (by simp),
    dget?_dinsert, if_pos rfl] at hs
  rw [dget?_dinsert, if_neg (by simp),
    dget?_dinsert, if_neg (by simp),
    dget?_dinsert, if_pos rfl] at he
  cases hs
  cases he
  exact ⟨v1, v2, v3, v4, v5, v6, v7, v8, v9, v10, h1, h2, h3, h4, h5, h6,
    h7, h8, h9, h10, hloop⟩

lemma flattenWarning_preserve (i : Nat) (warning data : Dict)
    (v1 v2 v3 v4 v5 v6 v7 v8 v9 v10 : AttrVal) (k : String)
    (hk : ∀ s ∈ suffixList, k ≠ wkey i s) :
    dget? (flattenWarning i warning data v1 v2 v3 v4 v5 v6 v7 v8 v9 v10) k =
      dget? data k := by
  unfold flattenWarning
  rw [dget?_dinsert, if_neg (fun he => hk "" (by simp [suffixList]) he.symm),
    dget?_dinsert,
    if_neg (fun he => hk "_color" (by simp [suffixList]) he.symm),
    dget?_dinsert,
    if_neg (fun he => hk "_parameters" (by simp [suffixList]) he.symm),
    dget?_dinsert,
    if_neg (fun he => hk "_end" (by simp [suffixList]) he.symm),
    dget?_dinsert,
    if_neg (fun he => hk "_start" (by simp [suffixList]) he.symm),
    dget?_dinsert,
    if_neg (fun he => hk "_instruction" (by simp [suffixList]) he.symm),
    dget?_dinsert,
    if_neg (fun he => hk "_description" (by simp [suffixList]) he.symm),
    dget?_dinsert,
    if_neg (fun he => hk "_headline" (by simp [suffixList]) he.symm),
    dget?_dinsert,
    if_neg (fun he => hk "_level" (by simp [suffixList]) he.symm),
    dget?_dinsert,
    if_neg (fun he => hk "_type" (by simp [suffixList]) he.symm),
    dget?_dinsert,
    if_neg (fun he => hk "_name" (by simp [suffixList]) he.symm)]

lemma flattenWarning_lookup_fields (i : Nat) (warning data : Dict)
    (v1 v2 v3 v4 v5 v6 v7 v8 v9 v10 : AttrVal) :
    dget? (flattenWarning i warning data v1 v2 v3 v4 v5 v6 v7 v8 v9 v10)
        (wkey i "_name") = some v1 ∧
    dget? (flattenWarning i warning data v1 v2 v3 v4 v5 v6 v7 v8 v9 v10)
        (wkey i "_type") = some v2 ∧
    dget? (flattenWarning i warning data v1 v2 v3 v4 v5 v6 v7 v8 v9 v10)
        (wkey i "_level") = some v3 ∧
    dget? (flattenWarning i warning data v1 v2 v3 v4 v5 v6 v7 v8 v9 v10)
        (wkey i "_headline") = some v4 ∧
    dget? (flattenWarning i warning data v1 v2 v3 v4 v5 v6 v7 v8 v9 v10)
        (wkey i "_description") = some v5 ∧
    dget? (flattenWarning i warning data v1 v2 v3 v4 v5 v6 v7 v8 v9 v10)
        (wkey i "_instruction") = some v6 ∧
    dget? (flattenWarning i warning data v1 v2 v3 v4 v5 v6 v7 v8 v9 v10)
        (wkey i "_start") = some v7 ∧
    dget? (flattenWarning i warning data v1 v2 v3 v4 v5 v6 v7 v8 v9 v10)
        (wkey i "_end") = some v8 ∧
    dget? (flattenWarning i warning data v1 v2 v3 v4 v5 v6 v7 v8 v9 v10)
        (wkey i "_parameters") = some v9 ∧
    dget? (flattenWarning i warning data v1 v2 v3 v4 v5 v6 v7 v8 v9 v10)
        (wkey i "_color") = some v10 ∧
    dget? (flattenWarning i warning data v1 v2 v3 v4 v5 v6 v7 v8 v9 v10)
        (wkey i "") =
      some (AttrVal.dict
        (dinsert (dinsert warning API_ATTR_WARNING_START v7)
          API_ATTR_WARNING_END v8)) := by
  unfold flattenWarning
  refine ⟨?_, ?_, ?_, ?_, ?_, ?_, ?_, ?_, ?_, ?_, ?_⟩ <;>
    simp [dget?_dinsert]

lemma warningLoop_preserve (warnings : List Dict) : ∀ (i : Nat)
    (data d : Dict), warningLoop i warnings data = some d →
    ∀ k, (∀ j s, i ≤ j → s ∈ suffixList → k ≠ wkey j s) →
    dget? d k = dget? data k := by
  induction warnings with
  | nil =>
    intro i data d h k _
    simp only [warningLoop, Option.some.injEq] at h
    rw [h]
  | cons w rest ih =>
    intro i data d h k hk
    obtain ⟨v1, v2, v3, v4, v5, v6, v7, v8, v9, v10, h1, h2, h3, h4, h5,
      h6, h7, h8, h9, h10, hloop⟩ := warningLoop_cons_inv h
    rw [ih (i + 1) _ d hloop k (fun j s hj hs => hk j s (by omega) hs)]
    exact flattenWarning_preserve i w data v1 v2 v3 v4 v5 v6 v7 v8 v9 v10 k
      (fun s hs => hk i s (Nat.le_refl i) hs)

lemma warningLoop_lookup (warnings : List Dict) : ∀ (i : Nat) (data d : Dict)
    (p : Nat) (hp : p < warnings.length),
    warningLoop i warnings data = some d →
    ((∃ v, dget? (warnings.get ⟨p, hp⟩) API_ATTR_WARNING_NAME = some v ∧
        dget? d (wkey (i + p) "_name") = some v) ∧
     (∃ v, dget? (warnings.get ⟨p, hp⟩) API_ATTR_WARNING_TYPE = some v ∧
        dget? d (wkey (i + p) "_type") = some v) ∧
     (∃ v, dget? (warnings.get ⟨p, hp⟩) API_ATTR_WARNING_LEVEL = some v ∧
        dget? d (wkey (i + p) "_level") = some v) ∧
     (∃ v, dget? (warnings.get ⟨p, hp⟩) API_ATTR_WARNING_HEADLINE = some v ∧
        dget? d (wkey (i + p) "_headline") = some v) ∧
     (∃ v, dget? (warnings.get ⟨p, hp⟩) API_ATTR_WARNING_DESCRIPTION = some v ∧
        dget? d (wkey (i + p) "_description") = some v) ∧
     (∃ v, dget? (warnings.get ⟨p, hp⟩) API_ATTR_WARNING_INSTRUCTION = some v ∧
        dget? d (wkey (i + p) "_instruction") = some v) ∧
     (∃ v, dget? (warnings.get ⟨p, hp⟩) API_ATTR_WARNING_START = some v ∧
        dget? d (wkey (i + p) "_start") = some v) ∧
     (∃ v, dget? (warnings.get ⟨p, hp⟩) API_ATTR_WARNING_END = some v ∧
        dget? d (wkey (i + p) "_end") = some v) ∧
     (∃ v, dget? (warnings.get ⟨p, hp⟩) API_ATTR_WARNING_PARAMETERS = some v ∧
        dget? d (wkey (i + p) "_parameters") = some v) ∧
     (∃ v, dget? (warnings.get ⟨p, hp⟩) API_ATTR_WARNING_COLOR = some v ∧
        dget? d (wkey (i + p) "_color") = some v) ∧
     (∃ wc, dget? d (wkey (i + p) "") = some (AttrVal.dict wc) ∧
        ∀ k, dget? wc k = dget? (warnings.get ⟨p, hp⟩) k)) := by
  induction warnings with
  | nil =>
    intro i data d p hp
    exact absurd hp (by simp)
  | cons w rest ih =>
    intro i data d p hp h
    obtain ⟨v1, v2, v3, v4, v5, v6, v7, v8, v9, v10, h1, h2, h3, h4, h5,
      h6, h7, h8, h9, h10, hloop⟩ := warningLoop_cons_inv h
    cases p with
    | zero =>
      have hpres : ∀ s ∈ suffixList,
          dget? d (wkey i s) =
            dget? (flattenWarning i w data v1 v2 v3 v4 v5 v6 v7 v8 v9 v10)
              (wkey i s) := by
        intro s hs
        refine warningLoop_preserve rest (i + 1) _ d hloop (wkey i s) ?_
        intro j t hj ht he
        have hij := wkey_inj (suffixList_headNotDigit s hs)
          (suffixList_headNotDigit t ht) he
        omega
      have hf := flattenWarning_lookup_fields i w data v1 v2 v3 v4 v5 v6 v7
        v8 v9 v10
      have hcopy : ∀ k,
          dget? (dinsert (dinsert w API_ATTR_WARNING_START v7)
            API_ATTR_WARNING_END v8) k = dget? w k := by
        intro k
        have h8x : dget? (dinsert w API_ATTR_WARNING_START v7)
            API_ATTR_WARNING_END = some v8 := by
          rw [dget?_dinsert_self h7]
          exact h8
        rw [dget?_dinsert_self h8x, dget?_dinsert_self h7]
      simp only [List.get, Nat.add_zero]
      refine ⟨⟨v1, h1, ?_⟩, ⟨v2, h2, ?_⟩, ⟨v3, h3, ?_⟩, ⟨v4, h4, ?_⟩,
        ⟨v5, h5, ?_⟩, ⟨v6, h6, ?_⟩, ⟨v7, h7, ?_⟩, ⟨v8, h8, ?_⟩,
        ⟨v9, h9, ?_⟩, ⟨v10, h10, ?_⟩,
        ⟨dinsert (dinsert w API_ATTR_WARNING_START v7)
          API_ATTR_WARNING_END v8, ?_, hcopy⟩⟩
      · rw [hpres "_name" (by simp [suffixList])]; exact hf.1
      · rw [hpres "_type" (by simp [suffixList])]; exact hf.2.1
      · rw [hpres "_level" (by simp [suffixList])]; exact hf.2.2.1
      · rw [hpres "_headline" (by simp [suffixList])]; exact hf.2.2.2.1
      · rw [hpres "_description" (by simp [suffixList])]
        exact hf.2.2.2.2.1
      · rw [hpres "_instruction" (by simp [suffixList])]
        exact hf.2.2.2.2.2.1
      · rw [hpres "_start" (by simp [suffixList])]
        exact hf.2.2.2.2.2.2.1
      · rw [hpres "_end" (by simp [suffixList])]
        exact hf.2.2.2.2.2.2.2.1
      · rw [hpres "_parameters" (by simp [suffixList])]
        exact hf.2.2.2.2.2.2.2.2.1
      · rw [hpres "_color" (by simp [suffixList])]
        exact hf.2.2.2.2.2.2.2.2.2.1
      · rw [hpres "" (by simp [suffixList])]
        exact hf.2.2.2.2.2.2.2.2.2.2
    | succ q =>
      have hq : q < rest.length := by
        have := hp
        simp at this
        omega
      have := ih (i + 1) _ d q hq hloop
      rw [show i + 1 + q = i + (q + 1) by omega] at this
      simpa using this

lemma wkey_ne_header (i : Nat) (s : String)
    (hs : headNotDigit s.data = true) :
    wkey i s ≠ ATTR_REGION_NAME ∧ wkey i s ≠ ATTR_REGION_ID ∧
    wkey i s ≠ ATTR_LAST_UPDATE ∧ wkey i s ≠ ATTR_WARNING_COUNT := by
  refine ⟨fun h => ?_, fun h => ?_, fun h => ?_, fun h => ?_⟩
  · have hd := congrArg String.data h
    rw [wkey_data, show ATTR_REGION_NAME.data =
      'r' :: 'e' :: 'g' :: 'i' :: 'o' :: 'n' :: '_' :: 'n' :: 'a' :: 'm' ::
        'e' :: [] from rfl] at hd
    injection hd with h1 _
    exact absurd h1 (by decide)
  · have hd := congrArg String.data h
    rw [wkey_data, show ATTR_REGION_ID.data =
      'r' :: 'e' :: 'g' :: 'i' :: 'o' :: 'n' :: '_' :: 'i' :: 'd' :: []
      from rfl] at hd
    injection hd with h1 _
    exact absurd h1 (by decide)
  · have hd := congrArg String.data h
    rw [wkey_data, show ATTR_LAST_UPDATE.data =
      'l' :: 'a' :: 's' :: 't' :: '_' :: 'u' :: 'p' :: 'd' :: 'a' :: 't' ::
        'e' :: [] from rfl] at hd
    injection hd with h1 _
    exact absurd h1 (by decide)
  · have hd := congrArg String.data h
    rw [show (wkey i s).data =
        "warning_".data ++ ((Nat.repr i).data ++ s.data) from by
        rw [wkey_data]; rfl,
      show ATTR_WARNING_COUNT.data =
        "warning_".data ++ ('c' :: 'o' :: 'u' :: 'n' :: 't' :: []) from
        rfl] at hd
    have hd2 := List.append_cancel_left hd
    cases hr : (Nat.repr i).data with
    | nil => exact repr_data_ne_nil i hr
    | cons a l =>
      rw [hr] at hd2
      have ha : a.isDigit = true := repr_data_digits i a (by rw [hr]; simp)
      have hac : a = 'c' := by simpa using congrArg List.head? hd2
      rw [hac] at ha
      exact absurd ha (by decide)

lemma initialData_lookup (a b c : AttrVal) (n : Nat) :
    dget? (dinsert [(ATTR_REGION_NAME, a), (ATTR_REGION_ID, b),
        (ATTR_LAST_UPDATE, c)] ATTR_WARNING_COUNT (AttrVal.num n))
        ATTR_REGION_NAME = some a ∧
    dget? (dinsert [(ATTR_REGION_NAME, a), (ATTR_REGION_ID, b),
        (ATTR_LAST_UPDATE, c)] ATTR_WARNING_COUNT (AttrVal.num n))
        ATTR_REGION_ID = some b ∧
    dget? (dinsert [(ATTR_REGION_NAME, a), (ATTR_REGION_ID, b),
        (ATTR_LAST_UPDATE, c)] ATTR_WARNING_COUNT (AttrVal.num n))
        ATTR_LAST_UPDATE = some c ∧
    dget? (dinsert [(ATTR_REGION_NAME, a), (ATTR_REGION_ID, b),
        (ATTR_LAST_UPDATE, c)] ATTR_WARNING_COUNT (AttrVal.num n))
        ATTR_WARNING_COUNT = some (AttrVal.num n) := by
  refine ⟨?_, ?_, ?_, ?_⟩ <;>
    simp [dinsert, dget?, ATTR_REGION_NAME, ATTR_REGION_ID,
      ATTR_LAST_UPDATE, ATTR_WARNING_COUNT]

/-- The flattening loop with the mutable state threaded through: the warning
objects iterated over are given back after each iteration, so that writes to
them (there are none: the source only writes to `warning_copy`, a copy)
would be observable in the API state. -/
def warningLoopSt (i : Nat) (warnings : List Dict) (data : Dict) :
    Option (Dict × List Dict) :=
  match warnings with
  | [] => some (data, [])
  | warning :: rest => do
    let v1 ← dget? warning API_ATTR_WARNING_NAME
    let data := dinsert data (wkey i "_name") v1
    let v2 ← dget? warning API_ATTR_WARNING_TYPE
    let data := dinsert data (wkey i "_type") v2
    let v3 ← dget? warning API_ATTR_WARNING_LEVEL
    let data := dinsert data (wkey i "_level") v3
    let v4 ← dget? warning API_ATTR_WARNING_HEADLINE
    let data := dinsert data (wkey i "_headline") v4
    let v5 ← dget? warning API_ATTR_WARNING_DESCRIPTION
    let data := dinsert data (wkey i "_description") v5
    let v6 ← dget? warning API_ATTR_WARNING_INSTRUCTION
    let data := dinsert data (wkey i "_instruction") v6
    let v7 ← dget? warning API_ATTR_WARNING_START
    let data := dinsert data (wkey i "_start") v7
    let v8 ← dget? warning API_ATTR_WARNING_END
    let data := dinsert data (wkey i "_end") v8
    let v9 ← dget? warning API_ATTR_WARNING_PARAMETERS
    let data := dinsert data (wkey i "_parameters") v9
    let v10 ← dget? warning API_ATTR_WARNING_COLOR
    let data := dinsert data (wkey i "_color") v10
    let warning_copy := warning
    let s ← dget? data (wkey i "_start")
    let warning_copy := dinsert warning_copy API_ATTR_WARNING_START s
    let e ← dget? data (wkey i "_end")
    let warning_copy := dinsert warning_copy API_ATTR_WARNING_END e
    let data := dinsert data (wkey i "") (AttrVal.dict warning_copy)
    let pr ← warningLoopSt (i + 1) rest data
    some (pr.1, warning :: pr.2)

/-- `extra_state_attributes` with the state threaded through: the warning
list handed back by the loop is written back into the selected field of the
API object, and the updated API object back into `self.api` and
`self.coordinator.api` (one shared object in the source). -/
def DwdWeatherWarningsSensor.extra_state_attributes_st
    (self : DwdWeatherWarningsSensor) :
    Option (Dict × DwdWeatherWarningsSensor) := do
  let data : Dict :=
    [(ATTR_REGION_NAME, self.api.warncell_name),
     (ATTR_REGION_ID, self.api.warncell_id),
     (ATTR_LAST_UPDATE, self.api.last_update)]
  let searched_warnings :=
    searchedWarnings self.entity_description.key self.api
  let data :=
    dinsert data ATTR_WARNING_COUNT (AttrVal.num searched_warnings.length)
  let pr ← warningLoopSt 1 searched_warnings data
  let api2 :=
    if self.entity_description.key = CURRENT_WARNING_SENSOR then
      { self.api with current_warnings := pr.2 }
    else
      { self.api with expected_warnings := pr.2 }
  some (pr.1,
    { self with
      api := api2
      coordinator := { self.coordinator with api := api2 } })

/-- `native_value` with the state threaded through: it only reads. -/
def DwdWeatherWarningsSensor.native_value_st
    (self : DwdWeatherWarningsSensor) :
    AttrVal × DwdWeatherWarningsSensor :=
  (self.native_value, self)

/-- `available` with the state threaded through: it only reads. -/
def DwdWeatherWarningsSensor.available_st (self : DwdWeatherWarningsSensor) :
    Bool × DwdWeatherWarningsSensor :=
  (self.available, self)

lemma warningLoopSt_warnings (warnings : List Dict) : ∀ (i : Nat)
    (data d : Dict) (rest2 : List Dict),
    warningLoopSt i warnings data = some (d, rest2) → rest2 = warnings := by
  induction warnings with
  | nil =>
    intro i data d rest2 h
    simp only [warningLoopSt, Option.some.injEq, Prod.mk.injEq] at h
    exact h.2.symm ▸ rfl
  | cons w rest ih =>
    intro i data d rest2 h
    simp only [warningLoopSt] at h
    obtain ⟨v1, h1, h⟩ := option_bind_some h
    obtain ⟨v2, h2, h⟩ := option_bind_some h
    obtain ⟨v3, h3, h⟩ := option_bind_some h
    obtain ⟨v4, h4, h⟩ := option_bind_some h
    obtain ⟨v5, h5, h⟩ := option_bind_some h
    obtain ⟨v6, h6, h⟩ := option_bind_some h
    obtain ⟨v7, h7, h⟩ := option_bind_some h
    obtain ⟨v8, h8, h⟩ := option_bind_some h
    obtain ⟨v9, h9, h⟩ := option_bind_some h
    obtain ⟨v10, h10, h⟩ := option_bind_some h
    obtain ⟨s, hs, h⟩ := option_bind_some h
    obtain ⟨e, he, h⟩ := option_bind_some h
    obtain ⟨pr, hpr, h⟩ := option_bind_some h
    obtain ⟨d0, r0⟩ := pr
    simp only [Option.some.injEq, Prod.mk.injEq] at h
    rw [← h.2]
    rw [ih (i + 1) _ d0 r0 hpr]

/-- C3: for every sensor and every API snapshot, `native_value` returns
`api.current_warning_level` exactly when the entity description key equals
`CURRENT_WARNING_SENSOR`, and `api.expected_warning_level` for every other
key. -/
theorem native_value_selects_level (self : DwdWeatherWarningsSensor) :
    self.native_value =
      if self.entity_description.key = CURRENT_WARNING_SENSOR then
        self.api.current_warning_level
      else
        self.api.expected_warning_level := rfl

/-- C9: for every API snapshot, the sensor's `available` property returns
exactly the value of `api.data_valid`. -/
theorem available_returns_data_valid (self : DwdWeatherWarningsSensor) :
    self.available = self.api.data_valid := rfl

/-- C2: `async_setup_entry` adds exactly two sensor entities, one per entry
of `SENSOR_TYPES` (keys `current_warning_level` and `advance_warning_level`
in order), and their unique ids, the entry's unique id joined to the
description key by a hyphen, are distinct. -/
theorem async_setup_entry_adds_two_sensors
    (hassData : String → DwdWeatherWarningsCoordinator)
    (entry : ConfigEntry) :
    (async_setup_entry hassData entry).length = 2 ∧
    (async_setup_entry hassData entry).map
      (fun s => s.entity_description.key) =
      [CURRENT_WARNING_SENSOR, ADVANCE_WARNING_SENSOR] ∧
    (async_setup_entry hassData entry).map (fun s => s.attr_unique_id) =
      [pystr entry.unique_id ++ "-" ++ CURRENT_WARNING_SENSOR,
       pystr entry.unique_id ++ "-" ++ ADVANCE_WARNING_SENSOR] ∧
    pystr entry.unique_id ++ "-" ++ CURRENT_WARNING_SENSOR ≠
      pystr entry.unique_id ++ "-" ++ ADVANCE_WARNING_SENSOR := by
  refine ⟨rfl, rfl, rfl, fun h => ?_⟩
  have hc := string_append_left_cancel h
  exact absurd hc (by decide)

/-- C4: for every YAML configuration and every `discovery_info`,
`async_setup_platform` registers one deprecation issue and starts exactly
one import config flow with source `SOURCE_IMPORT` whose data is exactly
the given configuration, and it adds no entities. -/
theorem async_setup_platform_imports_yaml (config : Dict)
    (discovery_info : Option Dict) :
    (async_setup_platform config discovery_info).flows =
      [{ handler := DOMAIN, source := SOURCE_IMPORT, data := config }] ∧
    (async_setup_platform config discovery_info).issues.length = 1 ∧
    (async_setup_platform config discovery_info).issues.map
      (fun issue => issue.issue_id) = ["deprecated_yaml_" ++ DOMAIN] ∧
    (async_setup_platform config discovery_info).entities_added = [] :=
  ⟨rfl, rfl, rfl, rfl⟩

/-- C6: `native_value`, `extra_state_attributes` and `available` are
deterministic functions of the entity description key and the API snapshot:
two sensors agreeing on those fields produce equal results, whatever their
other fields are. -/
theorem sensor_properties_deterministic
    (s1 s2 : DwdWeatherWarningsSensor)
    (hkey : s1.entity_description.key = s2.entity_description.key)
    (hapi : s1.api = s2.api) :
    s1.native_value = s2.native_value ∧
    s1.extra_state_attributes = s2.extra_state_attributes ∧
    s1.available = s2.available := by
  unfold DwdWeatherWarningsSensor.native_value
    DwdWeatherWarningsSensor.extra_state_attributes
    DwdWeatherWarningsSensor.available
  rw [hkey, hapi]
  exact ⟨rfl, rfl, rfl⟩

/-- C7: whenever `extra_state_attributes` returns a dictionary, it contains
the keys `region_name`, `region_id` and `last_update` (holding
`api.warncell_name`, `api.warncell_id` and `api.last_update`) and the key
`warning_count` holding the length of the selected warning list, even when
that list is empty. -/
theorem extra_state_attributes_base_attributes
    (self : DwdWeatherWarningsSensor) (d : Dict)
    (h : self.extra_state_attributes = some d) :
    dget? d ATTR_REGION_NAME = some self.api.warncell_name ∧
    dget? d ATTR_REGION_ID = some self.api.warncell_id ∧
    dget? d ATTR_LAST_UPDATE = some self.api.last_update ∧
    dget? d ATTR_WARNING_COUNT =
      some (AttrVal.num
        (searchedWarnings self.entity_description.key self.api).length) := by
  rw [show self.extra_state_attributes =
    warningLoop 1 (searchedWarnings self.entity_description.key self.api)
      (dinsert [(ATTR_REGION_NAME, self.api.warncell_name),
        (ATTR_REGION_ID, self.api.warncell_id),
        (ATTR_LAST_UPDATE, self.api.last_update)] ATTR_WARNING_COUNT
        (AttrVal.num (searchedWarnings self.entity_description.key
          self.api).length)) from rfl] at h
  have hpre := warningLoop_preserve
    (searchedWarnings self.entity_description.key self.api) 1 _ d h
  have hinit := initialData_lookup self.api.warncell_name
    self.api.warncell_id self.api.last_update
    (searchedWarnings self.entity_description.key self.api).length
  refine ⟨?_, ?_, ?_, ?_⟩
  · rw [hpre ATTR_REGION_NAME (fun j s _ hs =>
      (Ne.symm (wkey_ne_header j s (suffixList_headNotDigit s hs)).1))]
    exact hinit.1
  · rw [hpre ATTR_REGION_ID (fun j s _ hs =>
      (Ne.symm (wkey_ne_header j s (suffixList_headNotDigit s hs)).2.1))]
    exact hinit.2.1
  · rw [hpre ATTR_LAST_UPDATE (fun j s _ hs =>
      (Ne.symm (wkey_ne_header j s (suffixList_headNotDigit s hs)).2.2.1))]
    exact hinit.2.2.1
  · rw [hpre ATTR_WARNING_COUNT (fun j s _ hs =>
      (Ne.symm (wkey_ne_header j s (suffixList_headNotDigit s hs)).2.2.2))]
    exact hinit.2.2.2

/-- C1: for every sensor and every API snapshot, whenever
`extra_state_attributes` returns a dictionary and `i` is between 1 and the
length of the selected warning list, the dictionary contains the keys
`warning_i_name`, `warning_i_type`, `warning_i_level`, `warning_i_headline`,
`warning_i_description`, `warning_i_instruction`, `warning_i_start`,
`warning_i_end`, `warning_i_parameters` and `warning_i_color`, each holding
the corresponding field of the `i`-th warning of the list (in list order,
numbered from 1). -/
theorem extra_state_attributes_flattens_warnings
    (self : DwdWeatherWarningsSensor) (d : Dict) (i : Nat)
    (h : self.extra_state_attributes = some d) (h1 : 1 ≤ i)
    (h2 : i ≤ (searchedWarnings self.entity_description.key
      self.api).length) :
    (∃ v, dget? ((searchedWarnings self.entity_description.key self.api).get
        ⟨i - 1, by omega⟩) API_ATTR_WARNING_NAME = some v ∧
      dget? d (wkey i "_name") = some v) ∧
    (∃ v, dget? ((searchedWarnings self.entity_description.key self.api).get
        ⟨i - 1, by omega⟩) API_ATTR_WARNING_TYPE = some v ∧
      dget? d (wkey i "_type") = some v) ∧
    (∃ v, dget? ((searchedWarnings self.entity_description.key self.api).get
        ⟨i - 1, by omega⟩) API_ATTR_WARNING_LEVEL = some v ∧
      dget? d (wkey i "_level") = some v) ∧
    (∃ v, dget? ((searchedWarnings self.entity_description.key self.api).get
        ⟨i - 1, by omega⟩) API_ATTR_WARNING_HEADLINE = some v ∧
      dget? d (wkey i "_headline") = some v) ∧
    (∃ v, dget? ((searchedWarnings self.entity_description.key self.api).get
        ⟨i - 1, by omega⟩) API_ATTR_WARNING_DESCRIPTION = some v ∧
      dget? d (wkey i "_description") = some v) ∧
    (∃ v, dget? ((searchedWarnings self.entity_description.key self.api).get
        ⟨i - 1, by omega⟩) API_ATTR_WARNING_INSTRUCTION = some v ∧
      dget? d (wkey i "_instruction") = some v) ∧
    (∃ v, dget? ((searchedWarnings self.entity_description.key self.api).get
        ⟨i - 1, by omega⟩) API_ATTR_WARNING_START = some v ∧
      dget? d (wkey i "_start") = some v) ∧
    (∃ v, dget? ((searchedWarnings self.entity_description.key self.api).get
        ⟨i - 1, by omega⟩) API_ATTR_WARNING_END = some v ∧
      dget? d (wkey i "_end") = some v) ∧
    (∃ v, dget? ((searchedWarnings self.entity_description.key self.api).get
        ⟨i - 1, by omega⟩) API_ATTR_WARNING_PARAMETERS = some v ∧
      dget? d (wkey i "_parameters") = some v) ∧
    (∃ v, dget? ((searchedWarnings self.entity_description.key self.api).get
        ⟨i - 1, by omega⟩) API_ATTR_WARNING_COLOR = some v ∧
      dget? d (wkey i "_color") = some v) := by
  rw [show self.extra_state_attributes =
    warningLoop 1 (searchedWarnings self.entity_description.key self.api)
      (dinsert [(ATTR_REGION_NAME, self.api.warncell_name),
        (ATTR_REGION_ID, self.api.warncell_id),
        (ATTR_LAST_UPDATE, self.api.last_update)] ATTR_WARNING_COUNT
        (AttrVal.num (searchedWarnings self.entity_description.key
          self.api).length)) from rfl] at h
  have hmain := warningLoop_lookup
    (searchedWarnings self.entity_description.key self.api) 1 _ d (i - 1)
    (by omega) h
  rw [show 1 + (i - 1) = i from by omega] at hmain
  exact ⟨hmain.1, hmain.2.1, hmain.2.2.1, hmain.2.2.2.1, hmain.2.2.2.2.1,
    hmain.2.2.2.2.2.1, hmain.2.2.2.2.2.2.1, hmain.2.2.2.2.2.2.2.1,
    hmain.2.2.2.2.2.2.2.2.1, hmain.2.2.2.2.2.2.2.2.2.1⟩

/-- C8: for every `i` between 1 and the length of the selected warning list,
the composite attribute `warning_i` returned by `extra_state_attributes` is
a dictionary equal, key for key, to the `i`-th warning of the list: the
reassignments of its start and end fields write back the values just read
from that same warning, so they change nothing. -/
theorem extra_state_attributes_composite_warning
    (self : DwdWeatherWarningsSensor) (d : Dict) (i : Nat)
    (h : self.extra_state_attributes = some d) (h1 : 1 ≤ i)
    (h2 : i ≤ (searchedWarnings self.entity_description.key
      self.api).length) :
    ∃ wc, dget? d (wkey i "") = some (AttrVal.dict wc) ∧
      ∀ k, dget? wc k =
        dget? ((searchedWarnings self.entity_description.key self.api).get
          ⟨i - 1, by omega⟩) k := by
  rw [show self.extra_state_attributes =
    warningLoop 1 (searchedWarnings self.entity_description.key self.api)
      (dinsert [(ATTR_REGION_NAME, self.api.warncell_name),
        (ATTR_REGION_ID, self.api.warncell_id),
        (ATTR_LAST_UPDATE, self.api.last_update)] ATTR_WARNING_COUNT
        (AttrVal.num (searchedWarnings self.entity_description.key
          self.api).length)) from rfl] at h
  have hmain := warningLoop_lookup
    (searchedWarnings self.entity_description.key self.api) 1 _ d (i - 1)
    (by omega) h
  rw [show 1 + (i - 1) = i from by omega] at hmain
  exact hmain.2.2.2.2.2.2.2.2.2.2

/-- C5: the sensor is read-only with respect to the coordinator and API
state: evaluating `native_value`, `extra_state_attributes` and `available`
(threaded through the state) hands back the sensor, its coordinator and its
API object unchanged, provided `self.api` is the coordinator's API object,
as `__init__` makes it. -/
theorem sensor_properties_read_only
    (self self2 : DwdWeatherWarningsSensor) (d : Dict)
    (halias : self.coordinator.api = self.api)
    (h : self.extra_state_attributes_st = some (d, self2)) :
    self2 = self ∧ self.native_value_st.2 = self ∧
    self.available_st.2 = self := by
  refine ⟨?_, rfl, rfl⟩
  obtain ⟨⟨capi⟩, ed, an, au, di, dn, api⟩ := self
  dsimp only at halias
  subst halias
  simp only [DwdWeatherWarningsSensor.extra_state_attributes_st] at h
  obtain ⟨pr, hpr, h⟩ := option_bind_some h
  obtain ⟨d0, sr⟩ := pr
  have hsr := warningLoopSt_warnings _ 1 _ d0 sr hpr
  simp only [Option.some.injEq, Prod.mk.injEq] at h
  rw [← h.2, hsr]
  by_cases hk : ed.key = CURRENT_WARNING_SENSOR
  · simp [searchedWarnings, hk]
  · simp [searchedWarnings, hk]

/-- A concrete warning dictionary with all ten fields, used as witness
input. -/
def warningW : Dict :=
  [(API_ATTR_WARNING_NAME, AttrVal.str "Frost"),
   (API_ATTR_WARNING_TYPE, AttrVal.num 22),
   (API_ATTR_WARNING_LEVEL, AttrVal.num 1),
   (API_ATTR_WARNING_HEADLINE, AttrVal.str "Amtliche WARNUNG vor FROST"),
   (API_ATTR_WARNING_DESCRIPTION, AttrVal.str "Es tritt Frost auf."),
   (API_ATTR_WARNING_INSTRUCTION, AttrVal.str "Vorsicht auf Strassen"),
   (API_ATTR_WARNING_START, AttrVal.str "2023-08-01T00:00:00"),
   (API_ATTR_WARNING_END, AttrVal.str "2023-08-01T06:00:00"),
   (API_ATTR_WARNING_PARAMETERS, AttrVal.dict []),
   (API_ATTR_WARNING_COLOR, AttrVal.str "#98f0fb")]

/-- A concrete API snapshot with one current warning, used as witness
input. -/
def apiW : DwdApi :=
  { warncell_name := AttrVal.str "Hansestadt Hamburg"
    warncell_id := AttrVal.num 891000
    last_update := AttrVal.str "2023-08-01T12:00:00"
    current_warning_level := AttrVal.num 1
    expected_warning_level := AttrVal.num 0
    current_warnings := [warningW]
    expected_warnings := []
    data_valid := true }

/-- A concrete current-warning sensor over `apiW`, used as witness input. -/
def sensorW : DwdWeatherWarningsSensor :=
  DwdWeatherWarningsSensor.init ⟨apiW⟩
    { title := "Hamburg", entry_id := "entry1", unique_id := some "hh" }
    { key := CURRENT_WARNING_SENSOR, name := "Current Warning Level",
      icon := "mdi:close-octagon-outline" }

/-- `sensorW` with a different display name but the same key and API. -/
def sensorW2 : DwdWeatherWarningsSensor :=
  { sensorW with attr_name := "renamed" }

/-- The dictionary `extra_state_attributes` computes for `sensorW`. -/
def extraW : Dict := (sensorW.extra_state_attributes).getD []

/-- The dictionary the state-threaded `extra_state_attributes` computes for
`sensorW`. -/
def extraStW : Dict :=
  ((sensorW.extra_state_attributes_st).getD ([], sensorW)).1

theorem extra_state_attributes_flattens_warnings_witness :
    (∃ v, dget? warningW API_ATTR_WARNING_NAME = some v ∧
      dget? extraW (wkey 1 "_name") = some v) ∧
    (∃ v, dget? warningW API_ATTR_WARNING_TYPE = some v ∧
      dget? extraW (wkey 1 "_type") = some v) ∧
    (∃ v, dget? warningW API_ATTR_WARNING_LEVEL = some v ∧
      dget? extraW (wkey 1 "_level") = some v) ∧
    (∃ v, dget? warningW API_ATTR_WARNING_HEADLINE = some v ∧
      dget? extraW (wkey 1 "_headline") = some v) ∧
    (∃ v, dget? warningW API_ATTR_WARNING_DESCRIPTION = some v ∧
      dget? extraW (wkey 1 "_description") = some v) ∧
    (∃ v, dget? warningW API_ATTR_WARNING_INSTRUCTION = some v ∧
      dget? extraW (wkey 1 "_instruction") = some v) ∧
    (∃ v, dget? warningW API_ATTR_WARNING_START = some v ∧
      dget? extraW (wkey 1 "_start") = some v) ∧
    (∃ v, dget? warningW API_ATTR_WARNING_END = some v ∧
      dget? extraW (wkey 1 "_end") = some v) ∧
    (∃ v, dget? warningW API_ATTR_WARNING_PARAMETERS = some v ∧
      dget? extraW (wkey 1 "_parameters") = some v) ∧
    (∃ v, dget? warningW API_ATTR_WARNING_COLOR = some v ∧
      dget? extraW (wkey 1 "_color") = some v) :=
  extra_state_attributes_flattens_warnings sensorW extraW 1 rfl (by decide)
    (by decide)

theorem extra_state_attributes_base_attributes_witness :
    dget? extraW ATTR_REGION_NAME =
      some (AttrVal.str "Hansestadt Hamburg") ∧
    dget? extraW ATTR_REGION_ID = some (AttrVal.num 891000) ∧
    dget? extraW ATTR_LAST_UPDATE =
      some (AttrVal.str "2023-08-01T12:00:00") ∧
    dget? extraW ATTR_WARNING_COUNT = some (AttrVal.num 1) :=
  extra_state_attributes_base_attributes sensorW extraW rfl

theorem extra_state_attributes_composite_warning_witness :
    ∃ wc, dget? extraW (wkey 1 "") = some (AttrVal.dict wc) ∧
      ∀ k, dget? wc k = dget? warningW k :=
  extra_state_attributes_composite_warning sensorW extraW 1 rfl (by decide)
    (by decide)

theorem sensor_properties_deterministic_witness :
    sensorW.native_value = sensorW2.native_value ∧
    sensorW.extra_state_attributes = sensorW2.extra_state_attributes ∧
    sensorW.available = sensorW2.available :=
  sensor_properties_deterministic sensorW sensorW2 rfl rfl

theorem sensor_properties_read_only_witness :
    sensorW = sensorW ∧ sensorW.native_value_st.2 = sensorW ∧
    sensorW.available_st.2 = sensorW :=
  sensor_properties_read_only sensorW sensorW extraStW rfl rfl
